import Mathlib

/-!
Shallow embedding of the DiagnosticPro schema validation core
(`NMD/S4_runner.py` and the `NMD/S4_pydantic` contract models), together
with theorems settling the specification claims about it.

Modelling conventions:
* BigQuery / warehouse calls are modelled by their outcomes: a stage
  function receives the `Except`-valued outcome of each query it issues.
  `NotFound` on the primary table lookup is distinguished from every other
  exception (`WhErr`).
* Timestamps returned by the freshness query are modelled as rational
  "hours before now", so the staleness the runner computes is the value
  itself.  Durations (`'24h'`, `'2d'`, ...) are modelled by an inductive
  carrying the numeric part, mirroring the suffix dispatch of
  `_parse_duration`.
* `details` entries are recorded by their keys (the dict values - counts,
  floats, timestamps - are elided); the wall-clock `duration` attribute is
  not modelled.  Interpolated numbers inside warning strings are elided
  for the same reason.
* Python truthiness of optional integers is `pyTruthy` (`None` and `0`
  falsy); `x or 0` on an optional integer is `orZero`.
* Pydantic v2 semantics for the contract models: field constraints run
  first, then the `model_validator(mode="after")` functions in definition
  order, each replacing the model by its return value.  A `ValueError`
  becomes a validation error (a hard error); any other exception
  (`NameError` from an unbound variable, `AttributeError` on `None`)
  propagates uncaught.  This is `PydanticOutcome`.
-/

namespace DiagnosticPro

/-- Exit code for a fully successful run (`EXIT_SUCCESS` in `S4_runner.py`). -/
def EXIT_SUCCESS : Nat := 0

/-- Exit code for schema/constraint failures (`EXIT_HARD_FAILURE`). -/
def EXIT_HARD_FAILURE : Nat := 1

/-- Exit code for freshness/SLA soft failures (`EXIT_SOFT_FAILURE`). -/
def EXIT_SOFT_FAILURE : Nat := 2

/-- Container for validation results (`ValidationResult` in `S4_runner.py`).
`details` keeps the keys of the `details` dict; the `duration` attribute is
not modelled. -/
structure ValidationResult where
  name : String
  category : String
  passed : Bool
  errors : List String
  warnings : List String
  details : List String
deriving Repr, DecidableEq

/-- `ValidationResult.__init__`: fresh result for a (table, category) check. -/
def ValidationResult.init (name category : String) : ValidationResult :=
  { name := name, category := category, passed := true,
    errors := [], warnings := [], details := [] }

/-- `ValidationResult.add_error`: append a hard error and flip `passed`. -/
def ValidationResult.add_error (r : ValidationResult) (message : String) : ValidationResult :=
  { r with errors := r.errors ++ [message], passed := false }

/-- `ValidationResult.add_warning`: append a soft warning. -/
def ValidationResult.add_warning (r : ValidationResult) (message : String) : ValidationResult :=
  { r with warnings := r.warnings ++ [message] }

/-- Direct assignment `result.details[key] = ...` performed by the stage
functions (only the key is recorded). -/
def ValidationResult.set_detail (r : ValidationResult) (key : String) : ValidationResult :=
  { r with details := r.details ++ [key] }

/-- The mutations the runner applies to a `ValidationResult` after creating
it: the two methods `add_error` / `add_warning`, and the direct
`result.details[...] = ...` assignments in the stage functions. -/
inductive ROp where
  | addError (message : String)
  | addWarning (message : String)
  | setDetail (key : String)
deriving Repr, DecidableEq

/-- Whether an operation is one of the two mutator methods of the class. -/
def ROp.isAddOp : ROp → Bool
  | .addError _ => true
  | .addWarning _ => true
  | .setDetail _ => false

/-- Whether an operation is an `add_error`. -/
def ROp.isError : ROp → Bool
  | .addError _ => true
  | _ => false

/-- Apply one mutation to a result. -/
def ValidationResult.applyOp (r : ValidationResult) : ROp → ValidationResult
  | .addError m => r.add_error m
  | .addWarning m => r.add_warning m
  | .setDetail k => r.set_detail k

/-- Apply a sequence of mutations in order. -/
def ValidationResult.applyOps (r : ValidationResult) (ops : List ROp) : ValidationResult :=
  ops.foldl ValidationResult.applyOp r

/-- `ValidationRunner._determine_exit_code`: exit code from the accumulated
results and the `fail_on` mode. -/
def determine_exit_code (results : List ValidationResult) (fail_on : String) : Nat :=
  let has_errors := results.any fun r => !r.passed
  let has_warnings := results.any fun r => !r.warnings.isEmpty
  if has_errors then EXIT_HARD_FAILURE
  else if fail_on = "warn" && has_warnings then EXIT_SOFT_FAILURE
  else EXIT_SUCCESS

/-- Outcome of the primary table lookup (`client.get_table`): the table's
schema, or a `NotFound` exception, or any other exception (carrying its
message). -/
inductive WhErr where
  | notFound
  | other (message : String)
deriving Repr, DecidableEq

/-- One field of a BigQuery table schema (name and `field_type`). -/
structure SchemaField where
  name : String
  field_type : String
deriving Repr, DecidableEq

/-- One entry of `S2_table_contracts.yaml`'s `tables` map: the `schema`
sub-document with its `required_fields` list and `fields` map
(field name to declared `type`; missing keys default to empty). -/
structure TableContract where
  required_fields : List String
  fields : List (String × String)
deriving Repr, DecidableEq

/-- The loaded table-contracts configuration (`tables` map; an absent or
malformed file degrades to the empty map). -/
structure TableContracts where
  tables : List (String × TableContract)
deriving Repr, DecidableEq

/-- A quality-rule document (`global_rules` or one `table_rules` entry):
`patterns` and `timestamps` maps, each `none` when the key is absent. -/
structure RuleSet where
  patterns : Option (List (String × String))
  timestamps : Option (List (String × Bool))
deriving Repr, DecidableEq

/-- Python truthiness of the rule dict: `if not all_rules` holds exactly
when no key is present. -/
def RuleSet.isEmptyDict (rs : RuleSet) : Bool :=
  rs.patterns.isNone && rs.timestamps.isNone

/-- Dict merge `{**global_rules, **table_rules}`: a key present in the
table-specific document overrides the global one wholesale. -/
def RuleSet.merge (g t : RuleSet) : RuleSet :=
  { patterns := t.patterns.orElse fun _ => g.patterns,
    timestamps := t.timestamps.orElse fun _ => g.timestamps }

/-- The loaded quality-rules configuration (`S2_quality_rules.yaml`). -/
structure QualityRules where
  global_rules : RuleSet
  table_rules : List (String × RuleSet)
deriving Repr, DecidableEq

/-- A duration string as consumed by `_parse_duration`: the numeric part
plus its suffix (`h`, `d`, `m`, or none). -/
inductive Duration where
  | h (value : ℚ)
  | d (value : ℚ)
  | m (value : ℚ)
  | bare (value : ℚ)
deriving Repr, DecidableEq

/-- `ValidationRunner._parse_duration`: convert a duration to hours. -/
def parse_duration : Duration → ℚ
  | .h v => v
  | .d v => v * 24
  | .m v => v / 60
  | .bare v => v

/-- One entry of `freshness_slas.<category>.<table>`: the two duration
fields, `none` when the key is absent. -/
structure SlaEntry where
  max_staleness : Option Duration
  late_arrival_threshold : Option Duration
deriving Repr, DecidableEq

/-- Truthiness of the looked-up entry dict (`if not sla_config`). -/
def SlaEntry.isEmptyDict (e : SlaEntry) : Bool :=
  e.max_staleness.isNone && e.late_arrival_threshold.isNone

/-- The loaded SLA configuration (`freshness_slas` map of named category
maps). -/
structure SlaConfig where
  freshness_slas : List (String × List (String × SlaEntry))
deriving Repr, DecidableEq

/-- The category scan of `validate_freshness_sla`: `live_data_tables` is
consulted before `core_tables`; the first category containing the table
wins (`break`). -/
def SlaConfig.lookupEntry (cfg : SlaConfig) (table_name : String) : Option SlaEntry :=
  match (cfg.freshness_slas.lookup "live_data_tables").bind (·.lookup table_name) with
  | some e => some e
  | none => (cfg.freshness_slas.lookup "core_tables").bind (·.lookup table_name)

/-- Row returned by the aggregate timestamp-constraint query of
`validate_data_constraints`. -/
structure TsRow where
  total_rows : Nat
  null_created_at : Nat
  null_updated_at : Nat
  future_created_at : Nat
  invalid_updated_at : Nat
deriving Repr, DecidableEq

/-- Row returned by the freshness query: `MAX(created_at)` and
`MAX(updated_at)` as hours before now (`none` for SQL NULL), plus the row
count. -/
structure FreshRow where
  latest_created_at : Option ℚ
  latest_updated_at : Option ℚ
  total_rows : Nat
deriving Repr, DecidableEq

/-- `ValidationRunner.validate_schema_compliance`, with the outcome of the
`get_table` call passed in.  The table lookup happens before the contract
lookup, so a lookup exception is reported even for uncontracted tables.
Quote characters inside the original f-strings are elided. -/
def validate_schema_compliance (contracts : TableContracts) (dataset_id table_name : String)
    (table : Except WhErr (List SchemaField)) : ValidationResult :=
  let result := ValidationResult.init table_name "schema_compliance"
  match table with
  | .error .notFound =>
      result.add_error ("Table " ++ table_name ++ " not found in dataset " ++ dataset_id)
  | .error (.other e) =>
      result.add_error ("Schema validation failed: " ++ e)
  | .ok schema_fields =>
      match contracts.tables.lookup table_name with
      | none => result.add_warning ("No schema contract defined for " ++ table_name)
      | some contract =>
          let field_names := schema_fields.map (·.name)
          let result := contract.required_fields.foldl
            (fun r field_name =>
              if field_names.contains field_name then r
              else r.add_error ("Required field " ++ field_name ++ " missing from schema"))
            result
          let result := contract.fields.foldl
            (fun r fd =>
              match schema_fields.find? (fun f => f.name = fd.1) with
              | some actual =>
                  let expected_type := fd.2.toUpper
                  if expected_type ≠ "" && actual.field_type ≠ expected_type then
                    r.add_error ("Field " ++ fd.1 ++ " type mismatch: expected "
                      ++ expected_type ++ ", got " ++ actual.field_type)
                  else r
              | none => r)
            result
          result.set_detail "table_schema"

/-- `ValidationRunner.validate_data_constraints`, with the outcome of the
aggregate timestamp query passed in (the query is only issued when the
effective `timestamps` rules are non-empty).  `null_updated_at` is counted
by the query but never checked. -/
def validate_data_constraints (rules : QualityRules) (table_name : String)
    (query : Except String TsRow) : ValidationResult :=
  let result := ValidationResult.init table_name "data_constraints"
  let table_rules := (rules.table_rules.lookup table_name).getD ⟨none, none⟩
  let all_rules := RuleSet.merge rules.global_rules table_rules
  if all_rules.isEmptyDict then
    result.add_warning ("No data quality rules defined for " ++ table_name)
  else
    let result := (all_rules.patterns.getD []).foldl
      (fun r p => r.set_detail ("pattern_" ++ p.1)) result
    let timestamp_rules := all_rules.timestamps.getD []
    if timestamp_rules.isEmpty then result
    else
      match query with
      | .error e => result.add_warning ("Could not validate timestamps: " ++ e)
      | .ok row =>
          let result := if row.null_created_at > 0 then
              result.add_error ("Found " ++ toString row.null_created_at
                ++ " rows with NULL created_at")
            else result
          let result := if row.future_created_at > 0 then
              result.add_error ("Found " ++ toString row.future_created_at
                ++ " rows with future created_at")
            else result
          let result := if row.invalid_updated_at > 0 then
              result.add_error ("Found " ++ toString row.invalid_updated_at
                ++ " rows with updated_at < created_at")
            else result
          result.set_detail "timestamp_validation"

/-- `ValidationRunner.validate_freshness_sla`, with the outcome of the
MAX-timestamps query passed in.  `latest_timestamp` is
`row.latest_updated_at or row.latest_created_at` (Python `or`; datetimes
are always truthy), and defaults `'24h'` / `'12h'` apply to the two SLA
durations.  Interpolated numbers in the two staleness warnings are
elided. -/
def validate_freshness_sla (sla : SlaConfig) (table_name : String)
    (query : Except String FreshRow) : ValidationResult :=
  let result := ValidationResult.init table_name "freshness_sla"
  match sla.lookupEntry table_name with
  | none => result.add_warning ("No SLA configuration found for " ++ table_name)
  | some entry =>
      if entry.isEmptyDict then
        result.add_warning ("No SLA configuration found for " ++ table_name)
      else
        let staleness_hours := parse_duration (entry.max_staleness.getD (.h 24))
        let threshold_hours := parse_duration (entry.late_arrival_threshold.getD (.h 12))
        match query with
        | .error e => result.add_warning ("Could not check freshness: " ++ e)
        | .ok row =>
            if row.total_rows > 0 then
              match (match row.latest_updated_at with
                     | some u => some u
                     | none => row.latest_created_at) with
              | none => result.add_warning "No timestamp data found for freshness check"
              | some staleness_hours_actual =>
                  let result := result.set_detail "freshness_check"
                  if staleness_hours_actual > staleness_hours then
                    result.add_warning "Data is stale"
                  else if staleness_hours_actual > threshold_hours then
                    result.add_warning "Data approaching staleness"
                  else result
            else
              result.add_warning ("Table " ++ table_name ++ " is empty")

/-- Matching of the glob pattern built by `get_matching_tables`
(`pattern.replace("*", ".*").replace("?", ".")`, anchored fullmatch):
`*` matches any substring, `?` any single character, anything else
literally (table names contain no other regex metacharacters). -/
def globMatch : List Char → List Char → Bool
  | [], s => s.isEmpty
  | p :: ps, s =>
      if p = '*' then s.tails.any fun t => globMatch ps t
      else match s with
        | [] => false
        | c :: cs => (p = '?' || p = c) && globMatch ps cs

/-- The DataWarehouse collaborator, modelled by the outcomes of the four
kinds of calls the runner makes. -/
structure Warehouse where
  list_tables : Except String (List String)
  get_table : String → Except WhErr (List SchemaField)
  ts_query : String → Except String TsRow
  fresh_query : String → Except String FreshRow

/-- The three configuration documents plus the dataset id held by
`ValidationRunner`. -/
structure RunnerConfig where
  dataset_id : String
  quality_rules : QualityRules
  table_contracts : TableContracts
  sla_config : SlaConfig

/-- `ValidationRunner.get_matching_tables`: `*` returns every table, any
other pattern filters by the glob; a listing failure degrades to the empty
list. -/
def get_matching_tables (wh : Warehouse) (pattern : String) : List String :=
  match wh.list_tables with
  | .error _ => []
  | .ok tables =>
      if pattern = "*" then tables
      else tables.filter fun t => globMatch pattern.toList t.toList

/-- `ValidationRunner.run_validation`: resolve the pattern; an empty match
is an immediate hard failure with no per-table checks; otherwise run the
three stages per table in order, accumulate the results, and derive the
exit code.  Returns the exit code and the accumulated `self.results` (the
summary is `generate_summary` of that list). -/
def run_validation (cfg : RunnerConfig) (wh : Warehouse) (table_pattern fail_on : String) :
    Nat × List ValidationResult :=
  let tables := get_matching_tables wh table_pattern
  if tables.isEmpty then (EXIT_HARD_FAILURE, [])
  else
    let results := tables.flatMap fun t =>
      [ validate_schema_compliance cfg.table_contracts cfg.dataset_id t (wh.get_table t),
        validate_data_constraints cfg.quality_rules t (wh.ts_query t),
        validate_freshness_sla cfg.sla_config t (wh.fresh_query t) ]
    (determine_exit_code results fail_on, results)

/-- The overall counters of `ValidationRunner._generate_summary`. -/
structure Summary where
  total_checks : Nat
  passed_checks : Nat
  failed_checks : Nat
  total_warnings : Nat
  total_errors : Nat
deriving Repr, DecidableEq

/-- `ValidationRunner._generate_summary`, restricted to the overall
counters. -/
def generate_summary (results : List ValidationResult) : Summary :=
  let total_checks := results.length
  let passed_checks := (results.filter fun r => r.passed).length
  { total_checks := total_checks
    passed_checks := passed_checks
    failed_checks := total_checks - passed_checks
    total_warnings := (results.map fun r => r.warnings.length).sum
    total_errors := (results.map fun r => r.errors.length).sum }

/-- Python exceptions raised by the contract-model validators: `ValueError`
(converted by pydantic into a validation error), `NameError` from an
unbound variable, `AttributeError` from an attribute access on `None`. -/
inductive PyErr where
  | valueError (message : String)
  | nameError (varname : String)
  | attributeError (attr : String)
deriving Repr, DecidableEq

/-- Outcome of `Model.model_validate` once the field constraints have
passed: the validated value, a pydantic validation error (a hard error for
the pipeline), or an exception that pydantic does not catch. -/
inductive PydanticOutcome (α : Type) where
  | validated (value : α)
  | validationError (message : String)
  | uncaughtException (e : PyErr)
deriving Repr, DecidableEq

/-- Wrap the after-validator chain with pydantic's exception policy:
`ValueError` is caught and reported, everything else propagates. -/
def pydanticOutcome {α : Type} : Except PyErr α → PydanticOutcome α
  | .ok v => .validated v
  | .error (.valueError m) => .validationError m
  | .error e => .uncaughtException e

/-- Python truthiness of an optional integer (`None` and `0` are falsy). -/
def pyTruthy : Option Int → Bool
  | none => false
  | some n => n ≠ 0

/-- Python `x or 0` for an optional integer. -/
def orZero : Option Int → Int
  | none => 0
  | some n => n

/-- `InventoryInfo` (`parts_inventory_model.py`), restricted to the
quantity fields its model validator reads; the date and turnover fields,
unread by the validator, are elided.  All quantities are `conint(ge=0)`
optionals defaulting to `0`. -/
structure InventoryInfo where
  quantity_on_hand : Option Int
  quantity_allocated : Option Int
  quantity_available : Option Int
  reorder_point : Option Int
  reorder_quantity : Option Int
  max_stock_level : Option Int
deriving Repr, DecidableEq

/-- `InventoryInfo.validate_inventory_consistency`: silently overwrite an
inconsistent `quantity_available` with `on_hand - allocated`, then reject
`allocated > on_hand`, then the two truthiness-guarded reorder checks. -/
def validate_inventory_consistency (model : InventoryInfo) : Except String InventoryInfo :=
  let on_hand := orZero model.quantity_on_hand
  let allocated := orZero model.quantity_allocated
  let available := orZero model.quantity_available
  let model :=
    if available ≠ on_hand - allocated then
      { model with quantity_available := some (on_hand - allocated) }
    else model
  if allocated > on_hand then
    .error "Allocated quantity cannot exceed quantity on hand"
  else if pyTruthy model.reorder_point && pyTruthy model.max_stock_level
      && decide (orZero model.reorder_point ≥ orZero model.max_stock_level) then
    .error "Reorder point must be less than max stock level"
  else if pyTruthy model.reorder_quantity && pyTruthy model.max_stock_level
      && decide (orZero model.reorder_quantity > orZero model.max_stock_level) then
    .error "Reorder quantity cannot exceed max stock level"
  else .ok model

/-- Python `str.isdigit` on the slice `v[1:]`: non-empty and all decimal
digits (the `DTCCode` pattern has already constrained the digit class). -/
def isdigitChars (cs : List Char) : Bool :=
  !cs.isEmpty && cs.all Char.isDigit

/-- `DiagnosticCode.validate_dtc_format` (`diagnostic_sessions_model.py`):
length 5, category letter in P/B/C/U, four digits after it.  The nil match
arm is unreachable under the length guard. -/
def validate_dtc_format (v : String) : Except String String :=
  if v.length ≠ 5 then .error "DTC code must be exactly 5 characters"
  else
    match v.toList with
    | [] => .error "DTC code must start with P, B, C, or U"
    | category :: rest =>
        if !(category = 'P' || category = 'B' || category = 'C' || category = 'U') then
          .error "DTC code must start with P, B, C, or U"
        else if !isdigitChars rest then
          .error "DTC code must have 4 digits after the category letter"
        else .ok v

/-- The `RiskLevel` literal of `maintenance_predictions_model.py`. -/
inductive RiskLevel where
  | low
  | medium
  | high
  | critical
deriving Repr, DecidableEq

/-- `RiskAssessment` (`maintenance_predictions_model.py`); scores are
rationals with their `confloat` bounds enforced at field level. -/
structure RiskAssessment where
  overall_risk_score : Option ℚ
  failure_probability : Option ℚ
  confidence_level : Option ℚ
  risk_level : Option RiskLevel
  financial_impact : Option ℚ
  downtime_impact_hours : Option ℚ
  safety_impact_score : Option ℚ
  environmental_impact_score : Option ℚ
deriving Repr, DecidableEq

/-- The `thresholds` dict of `validate_risk_consistency`; the `.get`
default `(0.0, 1.0)` is unreachable because `risk_level` is a literal. -/
def risk_thresholds : RiskLevel → ℚ × ℚ
  | .low => (0, 0.3)
  | .medium => (0.2, 0.7)
  | .high => (0.6, 0.9)
  | .critical => (0.8, 1)

/-- `RiskAssessment.validate_risk_consistency`: when both the score and
the (always truthy) level are present, the score must lie in the level's
band. -/
def validate_risk_consistency (model : RiskAssessment) : Except PyErr RiskAssessment :=
  match model.overall_risk_score, model.risk_level with
  | some score, some level =>
      let t := risk_thresholds level
      if t.1 ≤ score ∧ score ≤ t.2 then .ok model
      else .error (.valueError "Risk score inconsistent with risk level")
  | _, _ => .ok model

/-- The `PredictionStatus` literal of `maintenance_predictions_model.py`. -/
inductive PredictionStatus where
  | active
  | acknowledged
  | scheduled
  | completed
  | dismissed
deriving Repr, DecidableEq

/-- The `PriorityLevel` literal of `maintenance_predictions_model.py`. -/
inductive MpPriority where
  | low
  | medium
  | high
  | urgent
deriving Repr, DecidableEq

/-- `MaintenancePredictions` (`maintenance_predictions_model.py`),
restricted to the fields its model validators read.  Dates and datetimes
are integer ordinals (only their ordering matters); `recommendation` keeps
only its presence (`Option Unit`), the single thing the validators read
about it. -/
structure MaintenancePredictions where
  prediction_date : Int
  predicted_failure_date : Option Int
  predicted_maintenance_date : Option Int
  priority : Option MpPriority
  status : Option PredictionStatus
  risk_assessment : Option RiskAssessment
  recommendation : Option Unit
  symptoms_detected : Option (List String)
  acknowledged_at : Option Int
  scheduled_maintenance_date : Option Int
  completed_at : Option Int
  created_at : Int
  updated_at : Int
deriving Repr, DecidableEq

/-- `validate_prediction_dates`: the three sequential date-ordering
checks (`prediction_date`, a plain date, is always truthy). -/
def validate_prediction_dates (model : MaintenancePredictions) :
    Except PyErr MaintenancePredictions :=
  if (match model.predicted_failure_date with
      | some pf => decide (pf ≤ model.prediction_date)
      | none => false) then
    .error (.valueError "Predicted failure date must be after prediction date")
  else if (match model.predicted_maintenance_date, model.predicted_failure_date with
      | some pm, some pf => decide (pm ≥ pf)
      | _, _ => false) then
    .error (.valueError "Predicted maintenance date should be before predicted failure date")
  else if (match model.scheduled_maintenance_date with
      | some sm => decide (sm < model.prediction_date)
      | none => false) then
    .error (.valueError "Scheduled maintenance date cannot be before prediction date")
  else .ok model

/-- `validate_status_transitions`: each status requires its timestamp or
date field. -/
def validate_status_transitions (model : MaintenancePredictions) :
    Except PyErr MaintenancePredictions :=
  if model.status = some .acknowledged ∧ model.acknowledged_at = none then
    .error (.valueError "acknowledged_at required when status is acknowledged")
  else if model.status = some .scheduled ∧ model.scheduled_maintenance_date = none then
    .error (.valueError "scheduled_maintenance_date required when status is scheduled")
  else if model.status = some .completed ∧ model.completed_at = none then
    .error (.valueError "completed_at required when status is completed")
  else .ok model

/-- `validate_risk_financial_consistency`: its only conditional branch
ends in `pass`, so the model is always returned unchanged. -/
def validate_risk_financial_consistency (model : MaintenancePredictions) :
    Except PyErr MaintenancePredictions :=
  .ok model

/-- `validate_expiration_reasonable`: the body is only the docstring (the
cross-field check was commented out), so the function returns `None`,
which pydantic takes as the new model value. -/
def validate_expiration_reasonable (_ : MaintenancePredictions) :
    Option MaintenancePredictions :=
  none

/-- `validate_symptoms_limit`: its first statement `if v and len(v) > 50`
evaluates the unbound name `v`, raising `NameError` before the model is
touched. -/
def validate_symptoms_limit (_ : Option MaintenancePredictions) :
    Except PyErr (Option MaintenancePredictions) :=
  .error (.nameError "v")

/-- `validate_updated_after_created`: reads `model.created_at`
(`AttributeError` when the model has become `None`), then evaluates the
unbound name `v` in `if created_at and v < created_at` (`created_at`, a
datetime, is always truthy), raising `NameError`. -/
def validate_updated_after_created (model : Option MaintenancePredictions) :
    Except PyErr (Option MaintenancePredictions) :=
  match model with
  | none => .error (.attributeError "created_at")
  | some _ => .error (.nameError "v")

/-- `validate_prediction_completeness`: high/urgent priority requires a
risk assessment and a recommendation (model instances are always truthy;
a `None` model would fail the `model.priority` access first). -/
def validate_prediction_completeness (model : Option MaintenancePredictions) :
    Except PyErr (Option MaintenancePredictions) :=
  match model with
  | none => .error (.attributeError "priority")
  | some m =>
      if m.priority = some .high ∨ m.priority = some .urgent then
        if m.risk_assessment = none then
          .error (.valueError "High/urgent priority predictions must include risk assessment")
        else if m.recommendation = none then
          .error (.valueError "High/urgent priority predictions must include recommendations")
        else .ok model
      else .ok model

/-- The after-validator chain of `MaintenancePredictions`, in definition
order; from `validate_expiration_reasonable` on, the threaded model value
is `None`. -/
def mp_after_validators (model : MaintenancePredictions) :
    Except PyErr (Option MaintenancePredictions) :=
  match validate_prediction_dates model with
  | .error e => .error e
  | .ok m1 =>
      match validate_status_transitions m1 with
      | .error e => .error e
      | .ok m2 =>
          match validate_risk_financial_consistency m2 with
          | .error e => .error e
          | .ok m3 =>
              let m4 := validate_expiration_reasonable m3
              match validate_symptoms_limit m4 with
              | .error e => .error e
              | .ok m5 =>
                  match validate_updated_after_created m5 with
                  | .error e => .error e
                  | .ok m6 => validate_prediction_completeness m6

/-- `MaintenancePredictions.model_validate` past field validation. -/
def mp_model_validate (model : MaintenancePredictions) :
    PydanticOutcome (Option MaintenancePredictions) :=
  pydanticOutcome (mp_after_validators model)

/-- `StatisticalProfile` (`feature_store_model.py`), restricted to the
fields its model validators read plus the numeric statistics; the
union-typed `min_value` / `max_value` / `most_frequent_value` fields,
unread by the validators, are elided. -/
structure StatisticalProfile where
  mean_value : Option ℚ
  median_value : Option ℚ
  std_deviation : Option ℚ
  percentile_25 : Option ℚ
  percentile_75 : Option ℚ
  percentile_95 : Option ℚ
  unique_count : Option Nat
  cardinality : Option Nat
deriving Repr, DecidableEq

/-- `validate_std_deviation_non_negative`: its first statement
`if v is not None and v < 0` evaluates the unbound name `v`, raising
`NameError` for every profile. -/
def validate_std_deviation_non_negative (_ : StatisticalProfile) :
    Except PyErr StatisticalProfile :=
  .error (.nameError "v")

/-- `StatisticalProfile.validate_percentile_order`: p25 must not exceed
p75 and p75 must not exceed p95, each checked only when both operands are
present. -/
def validate_percentile_order (model : StatisticalProfile) :
    Except PyErr StatisticalProfile :=
  if (match model.percentile_25, model.percentile_75 with
      | some p25, some p75 => decide (p25 > p75)
      | _, _ => false) then
    .error (.valueError "25th percentile cannot exceed 75th percentile")
  else if (match model.percentile_75, model.percentile_95 with
      | some p75, some p95 => decide (p75 > p95)
      | _, _ => false) then
    .error (.valueError "75th percentile cannot exceed 95th percentile")
  else .ok model

/-- The after-validator chain of `StatisticalProfile`, in definition
order: the broken standard-deviation validator runs first. -/
def sp_after_validators (model : StatisticalProfile) :
    Except PyErr StatisticalProfile :=
  match validate_std_deviation_non_negative model with
  | .error e => .error e
  | .ok m1 => validate_percentile_order m1

/-- `StatisticalProfile.model_validate` past field validation. -/
def sp_model_validate (model : StatisticalProfile) :
    PydanticOutcome StatisticalProfile :=
  pydanticOutcome (sp_after_validators model)

/-- Whether a validator returned a value rather than raising. -/
def accepts {ε α : Type} : Except ε α → Bool
  | .ok _ => true
  | .error _ => false

/-- The acceptance set stated by the claim for diagnostic trouble codes:
length 5, first character among uppercase P/B/C/U, remaining 4 characters
decimal digits. -/
def dtcSpec (s : String) : Prop :=
  s.length = 5 ∧ ∃ category rest, s.toList = category :: rest ∧
    (category = 'P' ∨ category = 'B' ∨ category = 'C' ∨ category = 'U') ∧
    ∀ d ∈ rest, d.isDigit = true

/-- C5: the DTC validator accepts exactly the strings of length 5 whose
first character is one of P, B, C, U and whose remaining 4 characters are
digits; `P0301` is accepted while `X0301`, `P030`, `p0301` and `P03011`
are rejected. -/
theorem c5_dtc_validator :
    (∀ s : String, accepts (validate_dtc_format s) = true ↔ dtcSpec s) ∧
    accepts (validate_dtc_format "P0301") = true ∧
    accepts (validate_dtc_format "X0301") = false ∧
    accepts (validate_dtc_format "P030") = false ∧
    accepts (validate_dtc_format "p0301") = false ∧
    accepts (validate_dtc_format "P03011") = false := by
  refine ⟨?_, by decide, by decide, by decide, by decide, by decide⟩
  intro s
  obtain ⟨data⟩ := s
  have hlen : (String.mk data).length = data.length := rfl
  have htl : (String.mk data).toList = data := rfl
  by_cases h5 : (String.mk data).length = 5
  · unfold validate_dtc_format
    rw [if_neg (not_not_intro h5)]
    rw [hlen] at h5
    unfold dtcSpec
    rw [htl, hlen]
    cases data with
    | nil => exact absurd h5 (by decide)
    | cons c rest =>
        have h4 : rest.length = 4 := by
          simpa using h5
        have hne : rest.isEmpty = false := by
          cases rest with
          | nil => exact absurd h4 (by decide)
          | cons d ds => rfl
        simp only [h5, true_and, List.cons.injEq]
        by_cases hcat : c = 'P' ∨ c = 'B' ∨ c = 'C' ∨ c = 'U'
        · have hb : (decide (c = 'P') || decide (c = 'B') || decide (c = 'C')
              || decide (c = 'U')) = true := by
            simp only [Bool.or_eq_true, decide_eq_true_eq]
            tauto
          by_cases hdig : rest.all Char.isDigit = true
          · have hdchars : isdigitChars rest = true := by
              unfold isdigitChars
              rw [hne, hdig]
              rfl
            rw [hb, hdchars]
            simp only [Bool.not_true, Bool.false_eq_true, if_false, accepts, true_iff]
            refine ⟨c, rest, ⟨rfl, rfl⟩, hcat, ?_⟩
            simpa [List.all_eq_true] using hdig
          · have hdchars : isdigitChars rest = false := by
              unfold isdigitChars
              rw [hne]
              simpa using hdig
            rw [hb, hdchars]
            simp only [Bool.not_true, Bool.not_false, Bool.false_eq_true, if_false,
              if_true, accepts, false_iff]
            rintro ⟨cat, r, ⟨hc, hr⟩, -, hall⟩
            subst hc
            subst hr
            exact hdig (by simpa [List.all_eq_true] using hall)
        · have hb : (decide (c = 'P') || decide (c = 'B') || decide (c = 'C')
              || decide (c = 'U')) = false := by
            simp only [Bool.or_eq_false_iff, decide_eq_false_iff_not]
            tauto
          rw [hb]
          simp only [Bool.not_false, if_true, accepts, Bool.false_eq_true, false_iff]
          rintro ⟨cat, r, ⟨hc, hr⟩, hcat', -⟩
          subst hc
          exact hcat hcat'
  · unfold validate_dtc_format dtcSpec
    rw [if_pos h5]
    rw [hlen] at h5
    rw [htl, hlen]
    simp [accepts, h5]

/-- C7: with both `overall_risk_score` and `risk_level` present, the risk
validator reports a hard error (a `ValueError`) exactly when the score
falls outside the band of the level: low [0.0, 0.3], medium [0.2, 0.7],
high [0.6, 0.9], critical [0.8, 1.0]; and it never does anything but
accept the model unchanged or raise that `ValueError`. -/
theorem c7_risk_band :
    (∀ m : RiskAssessment,
      validate_risk_consistency m = .ok m ∨
      validate_risk_consistency m =
        .error (.valueError "Risk score inconsistent with risk level")) ∧
    (∀ (s : ℚ) (fp cl fi dih sis eis : Option ℚ),
      (accepts (validate_risk_consistency
          ⟨some s, fp, cl, some RiskLevel.low, fi, dih, sis, eis⟩) = false ↔
        ¬((0 : ℚ) ≤ s ∧ s ≤ 0.3)) ∧
      (accepts (validate_risk_consistency
          ⟨some s, fp, cl, some RiskLevel.medium, fi, dih, sis, eis⟩) = false ↔
        ¬((0.2 : ℚ) ≤ s ∧ s ≤ 0.7)) ∧
      (accepts (validate_risk_consistency
          ⟨some s, fp, cl, some RiskLevel.high, fi, dih, sis, eis⟩) = false ↔
        ¬((0.6 : ℚ) ≤ s ∧ s ≤ 0.9)) ∧
      (accepts (validate_risk_consistency
          ⟨some s, fp, cl, some RiskLevel.critical, fi, dih, sis, eis⟩) = false ↔
        ¬((0.8 : ℚ) ≤ s ∧ s ≤ 1))) := by
  constructor
  · intro m
    unfold validate_risk_consistency
    rcases m.overall_risk_score with - | s <;> rcases hl : m.risk_level with - | level
    · left; rfl
    · left; rfl
    · left; rfl
    · simp only
      split_ifs
      · left; rfl
      · right; rfl
  · intro s fp cl fi dih sis eis
    refine ⟨?_, ?_, ?_, ?_⟩
    · by_cases h : (0 : ℚ) ≤ s ∧ s ≤ 0.3 <;>
        simp [validate_risk_consistency, risk_thresholds, accepts, h]
    · by_cases h : (0.2 : ℚ) ≤ s ∧ s ≤ 0.7 <;>
        simp [validate_risk_consistency, risk_thresholds, accepts, h]
    · by_cases h : (0.6 : ℚ) ≤ s ∧ s ≤ 0.9 <;>
        simp [validate_risk_consistency, risk_thresholds, accepts, h]
    · by_cases h : (0.8 : ℚ) ≤ s ∧ s ≤ 1 <;>
        simp [validate_risk_consistency, risk_thresholds, accepts, h]

/-- C4: the inventory validator rejects `allocated > on_hand` with a hard
error; whenever the (zero-coalesced) `quantity_available` disagrees with
`on_hand - allocated` and the record is accepted, the field has been
silently overwritten with `on_hand - allocated`; in particular
on_hand=25, allocated=3 is accepted with available auto-set to 22, and
on_hand=10, allocated=15 is a hard error. -/
theorem c4_inventory :
    (∀ m : InventoryInfo, orZero m.quantity_allocated > orZero m.quantity_on_hand →
      validate_inventory_consistency m =
        .error "Allocated quantity cannot exceed quantity on hand") ∧
    (∀ m m' : InventoryInfo, validate_inventory_consistency m = .ok m' →
      orZero m.quantity_available ≠ orZero m.quantity_on_hand - orZero m.quantity_allocated →
      m'.quantity_available =
        some (orZero m.quantity_on_hand - orZero m.quantity_allocated)) ∧
    validate_inventory_consistency ⟨some 25, some 3, some 0, none, none, none⟩ =
      .ok ⟨some 25, some 3, some 22, none, none, none⟩ ∧
    validate_inventory_consistency ⟨some 10, some 15, some 0, none, none, none⟩ =
      .error "Allocated quantity cannot exceed quantity on hand" := by
  refine ⟨?_, ?_, by rfl, by rfl⟩
  · intro m h
    unfold validate_inventory_consistency
    dsimp only
    split_ifs
    rfl
  · intro m m' hok hne
    unfold validate_inventory_consistency at hok
    dsimp only at hok
    rw [if_pos hne] at hok
    split_ifs at hok
    injection hok with heq
    subst heq
    rfl

/-- C4 witness: the hard-error branch applied at on_hand=10,
allocated=15 and the silent-correction branch applied at on_hand=25,
allocated=3, available=0. -/
theorem c4_inventory_witness :
    validate_inventory_consistency ⟨some 10, some 15, some 0, none, none, none⟩ =
      .error "Allocated quantity cannot exceed quantity on hand" ∧
    (⟨some 25, some 3, some 22, none, none, none⟩ : InventoryInfo).quantity_available =
      some (orZero (some 25) - orZero (some 3)) :=
  ⟨c4_inventory.1 ⟨some 10, some 15, some 0, none, none, none⟩ (by decide),
   c4_inventory.2.1 ⟨some 25, some 3, some 0, none, none, none⟩
     ⟨some 25, some 3, some 22, none, none, none⟩ (by rfl) (by decide)⟩

/-- C8 (code evaluated at the failing input): every `StatisticalProfile`
validation raises an uncaught `NameError` on the unbound `v` in
`validate_std_deviation_non_negative`, which runs before the percentile
check; the percentile validator itself, taken alone, rejects p25=80,
p75=50 with a `ValueError` and accepts p25=25, p75=75, p95=95. -/
theorem c8_percentile_chain :
    (∀ m : StatisticalProfile,
      sp_model_validate m = .uncaughtException (.nameError "v")) ∧
    validate_percentile_order ⟨none, none, none, some 80, some 50, none, none, none⟩ =
      .error (.valueError "25th percentile cannot exceed 75th percentile") ∧
    validate_percentile_order ⟨none, none, none, some 25, some 75, some 95, none, none⟩ =
      .ok ⟨none, none, none, some 25, some 75, some 95, none, none⟩ :=
  ⟨fun _ => rfl, by rfl, by rfl⟩

/-- A maintenance-prediction record whose fields satisfy every field
constraint and every date-ordering check. -/
def mpBase : MaintenancePredictions :=
  { prediction_date := 0, predicted_failure_date := some 30,
    predicted_maintenance_date := some 10, priority := some .medium,
    status := some .active, risk_assessment := none, recommendation := none,
    symptoms_detected := some [], acknowledged_at := none,
    scheduled_maintenance_date := none, completed_at := none,
    created_at := 0, updated_at := 1 }

/-- C6 (code evaluated at the failing input): the status preconditions do
raise hard errors (`ValueError`, hence a validation error) when the
required field is absent, but the record with `status=completed` and
`completed_at` set is not accepted: the validator chain raises an
uncaught `NameError` on the unbound `v`, and in fact no
`MaintenancePredictions` record is ever returned as a validated value. -/
theorem c6_status_chain :
    mp_model_validate { mpBase with status := some .completed } =
      .validationError "completed_at required when status is completed" ∧
    mp_model_validate { mpBase with status := some .acknowledged } =
      .validationError "acknowledged_at required when status is acknowledged" ∧
    mp_model_validate { mpBase with status := some .scheduled } =
      .validationError "scheduled_maintenance_date required when status is scheduled" ∧
    mp_model_validate { mpBase with status := some .completed, completed_at := some 5 } =
      .uncaughtException (.nameError "v") ∧
    (∀ m : MaintenancePredictions,
      mp_model_validate m = .uncaughtException (.nameError "v") ∨
      ∃ msg, mp_model_validate m = .validationError msg) := by
  refine ⟨by rfl, by rfl, by rfl, by rfl, ?_⟩
  intro m
  unfold mp_model_validate mp_after_validators
  unfold validate_prediction_dates validate_status_transitions
  split_ifs
  all_goals try exact Or.inr ⟨_, rfl⟩
  all_goals dsimp only
  all_goals split_ifs
  all_goals try exact Or.inr ⟨_, rfl⟩
  all_goals exact Or.inl rfl

/-- The empty rule document (missing or malformed configuration file). -/
def emptyRuleSet : RuleSet := ⟨none, none⟩

/-- Quality rules loaded from a missing file. -/
def emptyQualityRules : QualityRules := ⟨emptyRuleSet, []⟩

/-- Table contracts loaded from a missing file. -/
def emptyContracts : TableContracts := ⟨[]⟩

/-- SLA configuration loaded from a missing file. -/
def emptySla : SlaConfig := ⟨[]⟩

/-- A quality-rule configuration whose global rules carry one timestamp
rule, so the data-constraints stage issues its aggregate query. -/
def tsQualityRules : QualityRules :=
  ⟨⟨none, some [("require_created_at", true)]⟩, []⟩

/-- An SLA configuration giving the `users` table `max_staleness` 24h and
`late_arrival_threshold` 12h under `core_tables`. -/
def usersSla : SlaConfig :=
  ⟨[("core_tables", [("users", ⟨some (.h 24), some (.h 12)⟩)])]⟩

/-- C2 counterexample: an exception other than `NotFound` on the schema
stage's table lookup (here a deadline-exceeded message) is recorded with
`add_error`, producing a failed result with no warning - not the
warning-only outcome the claim states for non-`NotFound` exceptions. -/
theorem c2_counterexample :
    (validate_schema_compliance emptyContracts "diagnosticpro_prod" "users"
        (.error (.other "Deadline exceeded"))).passed = false ∧
    (validate_schema_compliance emptyContracts "diagnosticpro_prod" "users"
        (.error (.other "Deadline exceeded"))).errors =
      ["Schema validation failed: Deadline exceeded"] ∧
    (validate_schema_compliance emptyContracts "diagnosticpro_prod" "users"
        (.error (.other "Deadline exceeded"))).warnings = [] :=
  ⟨rfl, rfl, rfl⟩

/-- C2 as amended: in the schema stage every lookup exception - `NotFound`
or not - is a hard error; an exception during the data-constraints
timestamp query or during the freshness query produces only a warning;
and missing configuration (no contract, no rules, no SLA entry) produces
only a warning in the respective stage. -/
theorem c2_amended :
    (∀ (contracts : TableContracts) (ds t : String),
      (validate_schema_compliance contracts ds t (.error .notFound)).errors =
        ["Table " ++ t ++ " not found in dataset " ++ ds] ∧
      (validate_schema_compliance contracts ds t (.error .notFound)).passed = false ∧
      (validate_schema_compliance contracts ds t (.error .notFound)).warnings = []) ∧
    (∀ (contracts : TableContracts) (ds t e : String),
      (validate_schema_compliance contracts ds t (.error (.other e))).errors =
        ["Schema validation failed: " ++ e] ∧
      (validate_schema_compliance contracts ds t (.error (.other e))).passed = false) ∧
    (∀ t e : String,
      (validate_data_constraints tsQualityRules t (.error e)).warnings =
        ["Could not validate timestamps: " ++ e] ∧
      (validate_data_constraints tsQualityRules t (.error e)).errors = [] ∧
      (validate_data_constraints tsQualityRules t (.error e)).passed = true) ∧
    (∀ e : String,
      (validate_freshness_sla usersSla "users" (.error e)).warnings =
        ["Could not check freshness: " ++ e] ∧
      (validate_freshness_sla usersSla "users" (.error e)).errors = [] ∧
      (validate_freshness_sla usersSla "users" (.error e)).passed = true) ∧
    (∀ (ds t : String) (tbl : List SchemaField),
      (validate_schema_compliance emptyContracts ds t (.ok tbl)).warnings =
        ["No schema contract defined for " ++ t] ∧
      (validate_schema_compliance emptyContracts ds t (.ok tbl)).errors = []) ∧
    (∀ (t : String) (q : Except String TsRow),
      (validate_data_constraints emptyQualityRules t q).warnings =
        ["No data quality rules defined for " ++ t] ∧
      (validate_data_constraints emptyQualityRules t q).errors = []) ∧
    (∀ (t : String) (q : Except String FreshRow),
      (validate_freshness_sla emptySla t q).warnings =
        ["No SLA configuration found for " ++ t] ∧
      (validate_freshness_sla emptySla t q).errors = []) :=
  ⟨fun _ _ _ => ⟨rfl, rfl, rfl⟩,
   fun _ _ _ _ => ⟨rfl, rfl⟩,
   fun _ _ => ⟨rfl, rfl, rfl⟩,
   fun _ => ⟨rfl, rfl, rfl⟩,
   fun _ _ _ => ⟨rfl, rfl⟩,
   fun _ _ => ⟨rfl, rfl⟩,
   fun _ _ => ⟨rfl, rfl⟩⟩

/-- A sequence of mutations leaves `passed` true exactly when the initial
`passed` was true and no `add_error` occurs in it. -/
theorem applyOps_passed (ops : List ROp) :
    ∀ r : ValidationResult,
      ((r.applyOps ops).passed = true ↔
        (r.passed = true ∧ ∀ o ∈ ops, o.isError = false)) := by
  induction ops with
  | nil => intro r; simp [ValidationResult.applyOps]
  | cons o ops ih =>
      intro r
      have step : r.applyOps (o :: ops) = (r.applyOp o).applyOps ops := rfl
      rw [step, ih (r.applyOp o)]
      cases o with
      | addError m =>
          simp [ValidationResult.applyOp, ValidationResult.add_error, ROp.isError]
      | addWarning m =>
          simp [ValidationResult.applyOp, ValidationResult.add_warning, ROp.isError]
      | setDetail k =>
          simp [ValidationResult.applyOp, ValidationResult.set_detail, ROp.isError]

/-- `add_error` and `add_warning` never touch the `details` list. -/
theorem applyOps_details_of_addOnly (ops : List ROp) :
    ∀ r : ValidationResult, (∀ o ∈ ops, o.isAddOp = true) →
      (r.applyOps ops).details = r.details := by
  induction ops with
  | nil => intro r _; rfl
  | cons o ops ih =>
      intro r hall
      have step : r.applyOps (o :: ops) = (r.applyOp o).applyOps ops := rfl
      rw [step, ih (r.applyOp o) fun o ho => hall o (List.mem_cons_of_mem _ ho)]
      cases o with
      | addError m => rfl
      | addWarning m => rfl
      | setDetail k =>
          exact absurd (hall (ROp.setDetail k) (List.mem_cons_self _ _)) (by simp [ROp.isAddOp])

/-- A one-table contract making the schema stage hit its happy path. -/
def contractsUsers : TableContracts := ⟨[("users", ⟨["id"], []⟩)]⟩

/-- C3 counterexample: the schema stage's result on a contracted table is
not reachable from a fresh result by `add_error` / `add_warning` alone -
the stage also assigns `result.details` (and `result.duration`) directly,
so add-only sequences, which leave `details` empty, cannot produce it. -/
theorem c3_counterexample :
    ¬ ∃ ops : List ROp, (∀ o ∈ ops, o.isAddOp = true) ∧
      (ValidationResult.init "users" "schema_compliance").applyOps ops =
        validate_schema_compliance contractsUsers "diagnosticpro_prod" "users"
          (.ok [⟨"id", "STRING"⟩]) := by
  rintro ⟨ops, hall, heq⟩
  have hdet := applyOps_details_of_addOnly ops
    (ValidationResult.init "users" "schema_compliance") hall
  rw [heq] at hdet
  have : (validate_schema_compliance contractsUsers "diagnosticpro_prod" "users"
      (.ok [⟨"id", "STRING"⟩])).details = ["table_schema"] := rfl
  rw [this] at hdet
  exact absurd hdet (by decide)

/-- C3 as amended: `passed` is true exactly when no error has been added
(`add_error` appends its message and flips `passed`; `add_warning` only
appends a warning); beyond the two methods, the stage functions also
assign `details` (and the unmodelled `duration`) after creation, and no
operation other than `add_error` / `add_warning` changes `passed`,
`errors` or `warnings`. -/
theorem c3_amended :
    (∀ (n c : String) (ops : List ROp),
      (((ValidationResult.init n c).applyOps ops).passed = true ↔
        ∀ o ∈ ops, o.isError = false)) ∧
    (∀ (r : ValidationResult) (msg : String),
      (r.add_error msg).passed = false ∧
      (r.add_error msg).errors = r.errors ++ [msg] ∧
      (r.add_error msg).warnings = r.warnings ∧
      (r.add_warning msg).passed = r.passed ∧
      (r.add_warning msg).errors = r.errors ∧
      (r.add_warning msg).warnings = r.warnings ++ [msg] ∧
      (r.set_detail msg).passed = r.passed ∧
      (r.set_detail msg).errors = r.errors ∧
      (r.set_detail msg).warnings = r.warnings) := by
  constructor
  · intro n c ops
    rw [applyOps_passed]
    simp [ValidationResult.init]
  · intro r msg
    exact ⟨rfl, rfl, rfl, rfl, rfl, rfl, rfl, rfl, rfl⟩

/-- Staleness as the claim words it: now minus the more recent of the two
maxima - in hours-before-now the smaller of the two values - falling back
to `created_at` only when `updated_at` is absent.  Stated from the claim
for comparison with the code, which uses
`latest_updated_at or latest_created_at`. -/
def claim_staleness (row : FreshRow) : Option ℚ :=
  match row.latest_updated_at, row.latest_created_at with
  | some u, some c => some (min u c)
  | some u, none => some u
  | none, some c => some c
  | none, none => none

/-- The warning outcome the claim prescribes for a given staleness and the
two thresholds: stale when above `max_staleness`, approaching when above
`late_arrival_threshold` only, nothing otherwise. -/
def claim_fresh_warnings (max_staleness late_threshold staleness : ℚ) : List String :=
  if staleness > max_staleness then ["Data is stale"]
  else if staleness > late_threshold then ["Data approaching staleness"]
  else []

/-- Every freshness-stage result carries at most one warning, no error,
and `passed` true, whatever the configuration and query outcome. -/
theorem freshness_result_shape (sla : SlaConfig) (t : String)
    (q : Except String FreshRow) :
    (validate_freshness_sla sla t q).warnings.length ≤ 1 ∧
    (validate_freshness_sla sla t q).errors = [] ∧
    (validate_freshness_sla sla t q).passed = true ∧
    (validate_freshness_sla sla t q).name = t ∧
    (validate_freshness_sla sla t q).category = "freshness_sla" := by
  unfold validate_freshness_sla
  cases sla.lookupEntry t with
  | none =>
      simp [ValidationResult.add_warning, ValidationResult.init]
  | some entry =>
      by_cases he : entry.isEmptyDict
      all_goals simp only [he, if_true, if_false, Bool.false_eq_true]
      · simp [ValidationResult.add_warning, ValidationResult.init]
      · cases q with
        | error e => simp [ValidationResult.add_warning, ValidationResult.init]
        | ok row =>
            by_cases hn : row.total_rows > 0
            all_goals simp only [hn, if_true, if_false]
            · cases hu : row.latest_updated_at with
              | some u =>
                  simp only []
                  split_ifs <;>
                    simp [ValidationResult.add_warning, ValidationResult.set_detail,
                      ValidationResult.init]
              | none =>
                  cases hc : row.latest_created_at with
                  | some c =>
                      simp only []
                      split_ifs <;>
                        simp [ValidationResult.add_warning, ValidationResult.set_detail,
                          ValidationResult.init]
                  | none =>
                      simp [ValidationResult.add_warning, ValidationResult.init]
            · simp [ValidationResult.add_warning, ValidationResult.init]

/-- C9 counterexample: with max_staleness 24h and late threshold 12h, a
table whose `MAX(updated_at)` is 30 hours old but whose `MAX(created_at)`
is 1 hour old gets a stale warning from the code (which takes
`updated_at or created_at`), while the claim's staleness - the more
recent of the two maxima, 1 hour - is under both thresholds and so calls
for no warning at all. -/
theorem c9_counterexample :
    (validate_freshness_sla usersSla "users"
        (.ok ⟨some 1, some 30, 5⟩)).warnings = ["Data is stale"] ∧
    claim_staleness ⟨some 1, some 30, 5⟩ = some 1 ∧
    claim_fresh_warnings 24 12 1 = [] := by
  refine ⟨by rfl, ?_, by rfl⟩
  show some (min (30 : ℚ) 1) = some 1
  norm_num

/-- C9 as amended: staleness is now minus `MAX(updated_at)` whenever that
maximum is present, falling back to `MAX(created_at)` only when it is
absent; exactly one of the three outcomes occurs - a stale warning above
`max_staleness`, an approaching-staleness warning above
`late_arrival_threshold` only, or no warning - and the claim's two
worked examples hold. -/
theorem c9_amended :
    (∀ (u : ℚ) (c : Option ℚ) (n : ℕ),
      (validate_freshness_sla usersSla "users"
          (.ok ⟨c, some u, n + 1⟩)).warnings = claim_fresh_warnings 24 12 u) ∧
    (∀ (c : ℚ) (n : ℕ),
      (validate_freshness_sla usersSla "users"
          (.ok ⟨some c, none, n + 1⟩)).warnings = claim_fresh_warnings 24 12 c) ∧
    (∀ (sla : SlaConfig) (t : String) (q : Except String FreshRow),
      (validate_freshness_sla sla t q).warnings.length ≤ 1 ∧
      (validate_freshness_sla sla t q).errors = [] ∧
      (validate_freshness_sla sla t q).passed = true) ∧
    (validate_freshness_sla usersSla "users"
        (.ok ⟨some 30, some 30, 5⟩)).warnings = ["Data is stale"] ∧
    (validate_freshness_sla usersSla "users"
        (.ok ⟨some 10, some 10, 5⟩)).warnings = [] := by
  refine ⟨?_, ?_, ?_, by rfl, by rfl⟩
  · intro u c n
    have hl : usersSla.lookupEntry "users" =
        some ⟨some (.h 24), some (.h 12)⟩ := rfl
    unfold validate_freshness_sla
    rw [hl]
    dsimp only
    rw [show SlaEntry.isEmptyDict ⟨some (.h 24), some (.h 12)⟩ = false from rfl]
    simp only [Bool.false_eq_true, if_false]
    rw [if_pos (Nat.succ_pos n)]
    rw [show parse_duration ((some (Duration.h 24)).getD (Duration.h 24)) = (24 : ℚ) from rfl,
      show parse_duration ((some (Duration.h 12)).getD (Duration.h 12)) = (12 : ℚ) from rfl]
    unfold claim_fresh_warnings
    split_ifs <;> rfl
  · intro c n
    have hl : usersSla.lookupEntry "users" =
        some ⟨some (.h 24), some (.h 12)⟩ := rfl
    unfold validate_freshness_sla
    rw [hl]
    dsimp only
    rw [show SlaEntry.isEmptyDict ⟨some (.h 24), some (.h 12)⟩ = false from rfl]
    simp only [Bool.false_eq_true, if_false]
    rw [if_pos (Nat.succ_pos n)]
    rw [show parse_duration ((some (Duration.h 24)).getD (Duration.h 24)) = (24 : ℚ) from rfl,
      show parse_duration ((some (Duration.h 12)).getD (Duration.h 12)) = (12 : ℚ) from rfl]
    unfold claim_fresh_warnings
    split_ifs <;> rfl
  · intro sla t q
    exact ⟨(freshness_result_shape sla t q).1, (freshness_result_shape sla t q).2.1,
      (freshness_result_shape sla t q).2.2.1⟩

/-- C1: the exit code is a total deterministic function of the result set
and the `fail_on` mode - any failed result gives HARD_FAILURE regardless
of `fail_on`; otherwise `fail_on = "warn"` with at least one warning gives
SOFT_FAILURE; otherwise SUCCESS - and a pattern matching zero tables makes
the run return HARD_FAILURE with no per-table results at all. -/
theorem c1_exit_codes :
    (∀ (results : List ValidationResult) (fail_on : String),
      (determine_exit_code results fail_on = EXIT_HARD_FAILURE ↔
        ∃ r ∈ results, r.passed = false) ∧
      (determine_exit_code results fail_on = EXIT_SOFT_FAILURE ↔
        ((∀ r ∈ results, r.passed = true) ∧ fail_on = "warn" ∧
          ∃ r ∈ results, r.warnings ≠ [])) ∧
      (determine_exit_code results fail_on = EXIT_SUCCESS ↔
        ((∀ r ∈ results, r.passed = true) ∧
          ¬(fail_on = "warn" ∧ ∃ r ∈ results, r.warnings ≠ [])))) ∧
    (∀ (cfg : RunnerConfig) (wh : Warehouse) (pattern fail_on : String),
      get_matching_tables wh pattern = [] →
        run_validation cfg wh pattern fail_on = (EXIT_HARD_FAILURE, [])) := by
  constructor
  · intro results fail_on
    unfold determine_exit_code EXIT_SUCCESS EXIT_HARD_FAILURE EXIT_SOFT_FAILURE
    by_cases he : (results.any fun r => !r.passed) = true
    · have hex : ∃ r ∈ results, r.passed = false := by
        simpa [List.any_eq_true, Bool.not_eq_true'] using he
      have hall : ¬∀ r ∈ results, r.passed = true := by
        obtain ⟨r, hr, hp⟩ := hex
        intro hcon
        exact absurd (hcon r hr) (by simp [hp])
      simp [he, hex, hall]
    · have hex : ¬∃ r ∈ results, r.passed = false := by
        simpa [List.any_eq_true, Bool.not_eq_true'] using he
      have hall : ∀ r ∈ results, r.passed = true := by
        intro r hr
        by_contra hpf
        exact hex ⟨r, hr, by simpa using hpf⟩
      by_cases hw : (fail_on = "warn" && results.any fun r => !r.warnings.isEmpty) = true
      · have hww : fail_on = "warn" ∧ ∃ r ∈ results, r.warnings ≠ [] := by
          simpa [List.any_eq_true, List.isEmpty_iff] using hw
        simp [he, hw, hex, hww]
        exact hall
      · have hww : ¬(fail_on = "warn" ∧ ∃ r ∈ results, r.warnings ≠ []) := by
          simpa [List.any_eq_true, List.isEmpty_iff] using hw
        simp [he, hw, hex, hww]
        exact hall
  · intro cfg wh pattern fail_on h
    unfold run_validation
    rw [h]
    rfl

/-- A dataset with no tables at all. -/
def whNoTables : Warehouse :=
  { list_tables := .ok [], get_table := fun _ => .error .notFound,
    ts_query := fun _ => .error "unavailable",
    fresh_query := fun _ => .error "unavailable" }

/-- A dataset holding exactly the `users` table. -/
def whUsersOnly : Warehouse :=
  { list_tables := .ok ["users"], get_table := fun _ => .error .notFound,
    ts_query := fun _ => .error "unavailable",
    fresh_query := fun _ => .error "unavailable" }

/-- A runner configuration with all three documents missing. -/
def cfgEmpty : RunnerConfig :=
  ⟨"diagnosticpro_prod", emptyQualityRules, emptyContracts, emptySla⟩

/-- C1 witness: the zero-matching-tables branch applied to a concrete
empty dataset. -/
theorem c1_exit_codes_witness :
    run_validation cfgEmpty whNoTables "*" "error" = (EXIT_HARD_FAILURE, []) :=
  c1_exit_codes.2 cfgEmpty whNoTables "*" "error" rfl

/-- Folding result mutations that preserve `name` and `category` keeps
both. -/
theorem foldl_preserves_meta {α : Type} (f : ValidationResult → α → ValidationResult)
    (hf : ∀ r a, (f r a).name = r.name ∧ (f r a).category = r.category)
    (l : List α) : ∀ r : ValidationResult,
      (l.foldl f r).name = r.name ∧ (l.foldl f r).category = r.category := by
  induction l with
  | nil => intro r; exact ⟨rfl, rfl⟩
  | cons a l ih =>
      intro r
      have step : (a :: l).foldl f r = l.foldl f (f r a) := rfl
      rw [step]
      exact ⟨(ih (f r a)).1.trans (hf r a).1, (ih (f r a)).2.trans (hf r a).2⟩

/-- The schema stage labels its result with the table name and the
`schema_compliance` category. -/
theorem schema_result_meta (contracts : TableContracts) (ds t : String)
    (tbl : Except WhErr (List SchemaField)) :
    (validate_schema_compliance contracts ds t tbl).name = t ∧
    (validate_schema_compliance contracts ds t tbl).category = "schema_compliance" := by
  unfold validate_schema_compliance
  rcases tbl with e | fields
  · cases e <;> exact ⟨rfl, rfl⟩
  · cases contracts.tables.lookup t with
    | none => exact ⟨rfl, rfl⟩
    | some contract =>
        dsimp only
        refine ⟨((foldl_preserves_meta _ ?hf2 contract.fields _).1).trans
            ((foldl_preserves_meta _ ?hf1 contract.required_fields
              (ValidationResult.init t "schema_compliance")).1),
          ((foldl_preserves_meta _ ?hf2 contract.fields _).2).trans
            ((foldl_preserves_meta _ ?hf1 contract.required_fields
              (ValidationResult.init t "schema_compliance")).2)⟩
        case hf1 =>
          intro r a
          dsimp only
          split_ifs <;> exact ⟨rfl, rfl⟩
        case hf2 =>
          intro r a
          dsimp only
          split
          · split_ifs <;> exact ⟨rfl, rfl⟩
          · exact ⟨rfl, rfl⟩

/-- The data-constraints stage labels its result with the table name and
the `data_constraints` category. -/
theorem data_result_meta (rules : QualityRules) (t : String)
    (q : Except String TsRow) :
    (validate_data_constraints rules t q).name = t ∧
    (validate_data_constraints rules t q).category = "data_constraints" := by
  unfold validate_data_constraints
  dsimp only
  split_ifs
  · exact ⟨rfl, rfl⟩
  · exact foldl_preserves_meta
      (fun (r : ValidationResult) (p : String × String) => r.set_detail ("pattern_" ++ p.1))
      (fun r a => ⟨rfl, rfl⟩) _ (ValidationResult.init t "data_constraints")
  · cases q with
    | error e =>
        exact foldl_preserves_meta
          (fun (r : ValidationResult) (p : String × String) => r.set_detail ("pattern_" ++ p.1))
          (fun r a => ⟨rfl, rfl⟩) _ (ValidationResult.init t "data_constraints")
    | ok row =>
        dsimp only
        split_ifs <;>
          exact foldl_preserves_meta
            (fun (r : ValidationResult) (p : String × String) => r.set_detail ("pattern_" ++ p.1))
            (fun r a => ⟨rfl, rfl⟩) _ (ValidationResult.init t "data_constraints")

/-- Flat-mapping a three-element block per table triples the length. -/
theorem flatMap3_length (f g h : String → ValidationResult) (tables : List String) :
    (tables.flatMap fun t => [f t, g t, h t]).length = 3 * tables.length := by
  induction tables with
  | nil => rfl
  | cons a l ih =>
      have step : ((a :: l).flatMap fun t => [f t, g t, h t]) =
          f a :: g a :: h a :: (l.flatMap fun t => [f t, g t, h t]) := rfl
      rw [step]
      simp only [List.length_cons, ih]
      ring

/-- The three per-table results sit at positions 3i, 3i+1 and 3i+2 of the
flat-mapped list, in stage order. -/
theorem flatMap3_get (f g h : String → ValidationResult) (tables : List String) :
    ∀ (i : ℕ) (t : String), tables.get? i = some t →
      ((tables.flatMap fun t => [f t, g t, h t]).get? (3 * i) = some (f t) ∧
       (tables.flatMap fun t => [f t, g t, h t]).get? (3 * i + 1) = some (g t) ∧
       (tables.flatMap fun t => [f t, g t, h t]).get? (3 * i + 2) = some (h t)) := by
  induction tables with
  | nil => intro i t hi; cases hi
  | cons a l ih =>
      intro i t hi
      have step : ((a :: l).flatMap fun t => [f t, g t, h t]) =
          f a :: g a :: h a :: (l.flatMap fun t => [f t, g t, h t]) := rfl
      rw [step]
      cases i with
      | zero =>
          have ht : a = t := by simpa using hi
          subst ht
          exact ⟨rfl, rfl, rfl⟩
      | succ i =>
          have hi' : l.get? i = some t := by simpa using hi
          obtain ⟨g1, g2, g3⟩ := ih i t hi'
          refine ⟨?_, ?_, ?_⟩
          · rw [show 3 * (i + 1) = 3 * i + 1 + 1 + 1 from by ring]
            simp only [List.get?_cons_succ]
            exact g1
          · rw [show 3 * (i + 1) + 1 = 3 * i + 1 + 1 + 1 + 1 from by ring]
            simp only [List.get?_cons_succ]
            exact g2
          · rw [show 3 * (i + 1) + 2 = 3 * i + 2 + 1 + 1 + 1 from by ring]
            simp only [List.get?_cons_succ]
            exact g3

/-- C10: a run over a non-empty resolved table list appends exactly three
results per table - schema_compliance, data_constraints, freshness_sla, in
that order at positions 3i, 3i+1, 3i+2 - each labelled with its table, so
the summary's total check count is three times the number of matched
tables. -/
theorem c10_three_per_table :
    ∀ (cfg : RunnerConfig) (wh : Warehouse) (pattern fail_on : String)
      (i : ℕ) (t : String),
      (get_matching_tables wh pattern ≠ [] →
        (generate_summary (run_validation cfg wh pattern fail_on).2).total_checks =
          3 * (get_matching_tables wh pattern).length ∧
        (run_validation cfg wh pattern fail_on).2.length =
          3 * (get_matching_tables wh pattern).length) ∧
      ((get_matching_tables wh pattern).get? i = some t →
        ∃ r₁ r₂ r₃,
          (run_validation cfg wh pattern fail_on).2.get? (3 * i) = some r₁ ∧
          (run_validation cfg wh pattern fail_on).2.get? (3 * i + 1) = some r₂ ∧
          (run_validation cfg wh pattern fail_on).2.get? (3 * i + 2) = some r₃ ∧
          r₁.name = t ∧ r₁.category = "schema_compliance" ∧
          r₂.name = t ∧ r₂.category = "data_constraints" ∧
          r₃.name = t ∧ r₃.category = "freshness_sla") := by
  intro cfg wh pattern fail_on i t
  by_cases hemp : (get_matching_tables wh pattern).isEmpty
  · constructor
    · intro hne
      exact absurd (List.isEmpty_iff.mp hemp) hne
    · intro hi
      rw [List.isEmpty_iff.mp hemp] at hi
      cases hi
  · have hrun : (run_validation cfg wh pattern fail_on).2 =
        (get_matching_tables wh pattern).flatMap fun t =>
          [ validate_schema_compliance cfg.table_contracts cfg.dataset_id t (wh.get_table t),
            validate_data_constraints cfg.quality_rules t (wh.ts_query t),
            validate_freshness_sla cfg.sla_config t (wh.fresh_query t) ] := by
      unfold run_validation
      rw [if_neg (by simpa using hemp)]
    constructor
    · intro _
      have hlen := flatMap3_length
        (fun t => validate_schema_compliance cfg.table_contracts cfg.dataset_id t
          (wh.get_table t))
        (fun t => validate_data_constraints cfg.quality_rules t (wh.ts_query t))
        (fun t => validate_freshness_sla cfg.sla_config t (wh.fresh_query t))
        (get_matching_tables wh pattern)
      rw [hrun]
      exact ⟨hlen, hlen⟩
    · intro hi
      have hget := flatMap3_get
        (fun t => validate_schema_compliance cfg.table_contracts cfg.dataset_id t
          (wh.get_table t))
        (fun t => validate_data_constraints cfg.quality_rules t (wh.ts_query t))
        (fun t => validate_freshness_sla cfg.sla_config t (wh.fresh_query t))
        (get_matching_tables wh pattern) i t hi
      rw [hrun]
      refine ⟨_, _, _, hget.1, hget.2.1, hget.2.2, ?_, ?_, ?_, ?_, ?_, ?_⟩
      · exact (schema_result_meta cfg.table_contracts cfg.dataset_id t (wh.get_table t)).1
      · exact (schema_result_meta cfg.table_contracts cfg.dataset_id t (wh.get_table t)).2
      · exact (data_result_meta cfg.quality_rules t (wh.ts_query t)).1
      · exact (data_result_meta cfg.quality_rules t (wh.ts_query t)).2
      · exact (freshness_result_shape cfg.sla_config t (wh.fresh_query t)).2.2.2.1
      · exact (freshness_result_shape cfg.sla_config t (wh.fresh_query t)).2.2.2.2

/-- C10 witness: a one-table dataset run with the wildcard pattern yields
three results with the expected labels. -/
theorem c10_three_per_table_witness :
    (generate_summary (run_validation cfgEmpty whUsersOnly "*" "error").2).total_checks =
      3 * (get_matching_tables whUsersOnly "*").length ∧
    ∃ r₁ r₂ r₃,
      (run_validation cfgEmpty whUsersOnly "*" "error").2.get? 0 = some r₁ ∧
      (run_validation cfgEmpty whUsersOnly "*" "error").2.get? 1 = some r₂ ∧
      (run_validation cfgEmpty whUsersOnly "*" "error").2.get? 2 = some r₃ ∧
      r₁.name = "users" ∧ r₁.category = "schema_compliance" ∧
      r₂.name = "users" ∧ r₂.category = "data_constraints" ∧
      r₃.name = "users" ∧ r₃.category = "freshness_sla" := by
  have h := c10_three_per_table cfgEmpty whUsersOnly "*" "error" 0 "users"
  refine ⟨(h.1 (by decide)).1, ?_⟩
  have h2 := h.2 (by rfl)
  simpa using h2

end DiagnosticPro
